import Mathlib

/-!
# Shallow embedding of the ori-api service

This development embeds the data model, the read-time projection
(`db_to_schema` in each router module) and the CRUD handlers of the
ori-api FastAPI service (src/app/models.py, src/app/schemas.py,
src/app/routers/vergaderingen.py, src/app/routers/agendapunten.py,
src/app/routers/informatieobjecten.py) and proves properties of them.

Modelling conventions:
- Python strings are `String`; `datetime`/`date` values are carried through
  every code path untouched, so they are embedded as opaque `String`s.
- Database integer columns are `Int` (Python `int` is unbounded and the
  update paths can store negative values via `int(...)` on client input).
- Nullable columns and optional schema fields are `Option`.
- The `pid_uuid` column is declared `Optional[str]` in models.py but every
  row-creation path (the POST handlers and the repository's tests) sets it
  to a concrete string, so rows carry it as a plain `String` here.
- HTTP 404 (`HTTPException`) is the `httpError` case of `ApiResult`; a
  success response carries the handler's declared status code.
- The storage engine assigns the surrogate key as one more than the largest
  key currently in the table (SQLite rowid assignment), starting from 1.
-/

namespace OriApi

/-- From src/app/database.py: `API_SERVER = os.getenv("API_SERVER",
"http://localhost:8000")`; embedded with its default value. -/
def API_SERVER : String := "http://localhost:8000"

/-- From src/app/schemas.py: `VerwijzingNaarResource` — a reference object
with a required `id` and an optional `url`. -/
structure VerwijzingNaarResource where
  id : String
  url : Option String := none
deriving DecidableEq, Repr

/-- From src/app/schemas.py: the tagged `Organisatie` union
`Union[Gemeente, Provincie, Waterschap]`; each variant carries its code
field (`gemeente` / `provincie` / `waterschap`) and a display name. -/
inductive Organisatie where
  | gemeente (code : String) (naam : String)
  | provincie (code : String) (naam : String)
  | waterschap (code : String) (naam : String)
deriving DecidableEq, Repr

/-- Discriminator stored in the `organisatie_type` column; from the
`isinstance` dispatch in the POST/PUT handlers of all three routers. -/
def organisatieType : Organisatie → String
  | .gemeente _ _ => "gemeente"
  | .provincie _ _ => "provincie"
  | .waterschap _ _ => "waterschap"

/-- Code stored in the `organisatie_code` column; from the same
`isinstance` dispatch. -/
def organisatieCode : Organisatie → String
  | .gemeente code _ => code
  | .provincie code _ => code
  | .waterschap code _ => code

/-- The shared `organisatie_naam` column value (`organisatie.naam`). -/
def organisatieNaam : Organisatie → String
  | .gemeente _ naam => naam
  | .provincie _ naam => naam
  | .waterschap _ naam => naam

/-- Reconstruction of the tagged union from the two stored columns plus the
shared name, as written identically in `db_to_schema` of all three router
modules: `"gemeente"` gives `Gemeente`, `"provincie"` gives `Provincie`,
and every other stored discriminator falls into the `else` branch and
gives `Waterschap`. -/
def organisatieFromDB (ty code naam : String) : Organisatie :=
  if ty = "gemeente" then .gemeente code naam
  else if ty = "provincie" then .provincie code naam
  else .waterschap code naam

/-- From src/app/schemas.py: `Gremium`. -/
structure Gremium where
  gremiumidentificatie : String
  gremiumnaam : String
deriving DecidableEq, Repr

/-- From src/app/schemas.py: `GerelateerdInformatieobject`. -/
structure GerelateerdInformatieobject where
  informatieobject : String
  rol : String
deriving DecidableEq, Repr

/-- From src/app/models.py: `VergaderingDB` (table `vergaderingen`). -/
structure VergaderingDB where
  id : Int
  pid : String
  pid_uuid : String
  webpaginalink : Option String := none
  organisatie_type : String
  organisatie_code : String
  organisatie_naam : String
  dossiertype : String
  naam : String
  aanvang : Option String := none
  einde : Option String := none
  hoofdvergadering_id : Option Int := none
  gremium_identificatie : Option String := none
  gremium_naam : Option String := none
  geplandeaanvang : Option String := none
  geplandeeinde : Option String := none
  geplandedatum : Option String := none
  locatie : Option String := none
  vergaderstatus : Option String := none
  vergadertoelichting : Option String := none
  vergaderdatum : Option String := none
  vergaderingstype : Option String := none
deriving DecidableEq, Repr

/-- From src/app/models.py: `AgendapuntDB` (table `agendapunten`). -/
structure AgendapuntDB where
  id : Int
  pid : String
  pid_uuid : String
  webpaginalink : Option String := none
  organisatie_type : String
  organisatie_code : String
  organisatie_naam : String
  dossiertype : String
  agendapuntnaam : String
  vergadering_id : Option Int := none
  hoofdagendapunt_id : Option Int := none
  omschrijving : Option String := none
  volgnummer : Option String := none
  tussenkop : Option String := none
  overig : Option String := none
  starttijd : Option String := none
  eindtijd : Option String := none
  locatie : Option String := none
  geplandvolgnummer : Option String := none
  geplandeeindtijd : Option String := none
  geplandestarttijd : Option String := none
  indicatiehamerstuk : Option Bool := none
  indicatiebehandeld : Option Bool := none
  indicatiebesloten : Option Bool := none
deriving DecidableEq, Repr

/-- From src/app/models.py: `InformatieObjectDB` (table
`informatieobjecten`). -/
structure InformatieObjectDB where
  id : Int
  pid : String
  pid_uuid : String
  webpaginalink : String
  organisatie_type : String
  organisatie_code : String
  organisatie_naam : String
  titel : String
  wooinformatiecategorie : String
  datumingediend : String
  external_id : Option String := none
  auteur : Option String := none
  bronorganisatie : Option String := none
  creatiedatum : Option String := none
  informatieobjecttype : Option String := none
  formaat : Option String := none
  omschrijving : Option String := none
  taal : Option String := none
  gerelateerd_informatieobject_id : Option String := none
  gerelateerd_rol : Option String := none
deriving DecidableEq, Repr

/-- Modelled from the spec: the join entity of the many-to-many link —
"(agenda_item_id, information_object_id) pairs; no additional attributes".
src/app/models.py does not declare this table, but src/tests/test_main.py
imports `AgendapuntInformatieObjectLink` from app.models and the routers
traverse the relationship it backs, so the declaration is code of this
repository missing from src/. -/
structure AgendapuntInformatieObjectLink where
  agendapunt_id : Int
  informatieobject_id : Int
deriving DecidableEq, Repr

/-- The relational store: one list per table, in insertion order, plus the
join table. One value of this type stands for the database a request's
session reads and writes. -/
structure DBState where
  vergaderingen : List VergaderingDB := []
  agendapunten : List AgendapuntDB := []
  informatieobjecten : List InformatieObjectDB := []
  links : List AgendapuntInformatieObjectLink := []
deriving DecidableEq, Repr

/-- From src/app/models.py: the `VergaderingDB.agendapunten` relationship
(`back_populates="vergadering"`), keyed on the `vergadering_id` foreign
key. -/
def vergaderingAgendapunten (st : DBState) (v : VergaderingDB) : List AgendapuntDB :=
  st.agendapunten.filter (fun ap => ap.vergadering_id == some v.id)

/-- Modelled from the spec: the `AgendapuntDB.informatieobjecten`
relationship through the join entity ("Participates in a many-to-many
relationship with information objects via a join table"). The routers read
`db_agendapunt.informatieobjecten`, but src/app/models.py does not declare
the relationship. -/
def agendapuntInformatieobjecten (st : DBState) (ap : AgendapuntDB) : List InformatieObjectDB :=
  st.informatieobjecten.filter (fun io =>
    st.links.any (fun l => l.agendapunt_id == ap.id && l.informatieobject_id == io.id))

/-- Modelled from the spec: the `InformatieObjectDB.agendapunten`
relationship through the join entity (the symmetric side of the
many-to-many link). The informatieobjecten router reads and appends to
`db_obj.agendapunten`, but src/app/models.py does not declare the
relationship. -/
def informatieobjectAgendapunten (st : DBState) (io : InformatieObjectDB) : List AgendapuntDB :=
  st.agendapunten.filter (fun ap =>
    st.links.any (fun l => l.agendapunt_id == ap.id && l.informatieobject_id == io.id))

/-- Python truthiness of an `Optional[int]` value: `None` and `0` are
falsy. -/
def optIntTruthy : Option Int → Bool
  | some i => i != 0
  | none => false

/-- Python truthiness of an `Optional[str]` value: `None` and `""` are
falsy. -/
def optStrTruthy : Option String → Bool
  | some s => !s.isEmpty
  | none => false

/-- Python `s.split("/")[-1]` guarded by `if "/" in s`, as used by the
reference resolvers: strip any path prefix and keep the trailing path
segment. -/
def trailingSegment (s : String) : String :=
  if s.contains '/' then (s.splitOn "/").getLastD s else s

/-- Helper for `pyInt?`: decimal value of a digit list. -/
def digitsVal (ds : List Char) : Nat :=
  ds.foldl (fun n c => n * 10 + (c.toNat - Char.toNat (Char.ofNat 48))) 0

/-- Python `int(s)` on a string, as used by the reference resolvers: an
optional sign followed by one or more decimal digits parses to the signed
value; any other shape raises `ValueError`, modelled as `none` (the
handlers catch the exception and fall back to their lenient path). -/
def pyInt? (s : String) : Option Int :=
  match s.data with
  | [] => none
  | '-' :: ds =>
    if !ds.isEmpty && ds.all Char.isDigit then some (-(Int.ofNat (digitsVal ds))) else none
  | '+' :: ds =>
    if !ds.isEmpty && ds.all Char.isDigit then some (Int.ofNat (digitsVal ds)) else none
  | ds =>
    if ds.all Char.isDigit then some (Int.ofNat (digitsVal ds)) else none

/-- Storage-engine surrogate-key assignment: one more than the largest key
currently in the table (SQLite rowid behaviour), so the first row of a
table gets key 1. -/
def nextId (ids : List Int) : Int :=
  (ids.foldl max 0) + 1

/-- Outcome of a handler: a success body with the handler's declared
status code, or an `HTTPException` with its status code and detail
message. -/
inductive ApiResult (α : Type) where
  | ok (statusCode : Nat) (body : α)
  | httpError (statusCode : Nat) (detail : String)
deriving DecidableEq, Repr

/-- The fixed Dutch 404 detail used by the read/update/delete handlers. -/
def notFoundDetail : String := "De gevraagde resource is niet gevonden."

/-- From src/app/schemas.py: the `Vergadering` resource representation
(`VergaderingBase` plus `pid`). The `pid_uuid` field is modelled from the
spec ("a persistent identifier pair: an opaque UUID (`pid_uuid`) and a
derived full URL"): src/app/schemas.py omits it while every router passes
it to the constructor and src/tests/test_main.py asserts it is present in
responses, so the field is code of this repository missing from src/. -/
structure Vergadering where
  pid : String
  pid_uuid : String
  webpaginalink : Option String := none
  organisatie : Organisatie
  dossiertype : String
  naam : String
  aanvang : Option String := none
  hoofdvergadering : Option VerwijzingNaarResource := none
  einde : Option String := none
  georganiseerddoorgremium : Option Gremium := none
  geplandeaanvang : Option String := none
  geplandeeinde : Option String := none
  geplandedatum : Option String := none
  locatie : Option String := none
  vergaderstatus : Option String := none
  vergadertoelichting : Option String := none
  vergaderdatum : Option String := none
  vergaderingstype : Option String := none
  deelvergaderingen : Option (List String) := none
  agendapunten : Option (List String) := none
deriving DecidableEq, Repr

/-- From src/app/schemas.py: `VergaderingZonderPid` — the create payload,
without the server-assigned identifier fields. -/
structure VergaderingZonderPid where
  webpaginalink : Option String := none
  organisatie : Organisatie
  dossiertype : String
  naam : String
  aanvang : Option String := none
  hoofdvergadering : Option VerwijzingNaarResource := none
  einde : Option String := none
  georganiseerddoorgremium : Option Gremium := none
  geplandeaanvang : Option String := none
  geplandeeinde : Option String := none
  geplandedatum : Option String := none
  locatie : Option String := none
  vergaderstatus : Option String := none
  vergadertoelichting : Option String := none
  vergaderdatum : Option String := none
  vergaderingstype : Option String := none
  deelvergaderingen : Option (List String) := none
  agendapunten : Option (List String) := none
deriving DecidableEq, Repr

/-- From src/app/schemas.py: the `Agendapunt` resource representation
(`AgendapuntBase` plus `pid`). As for `Vergadering.pid_uuid`, the
`pid_uuid` and `informatieobjecten` fields are passed by the router's
`db_to_schema` while src/app/schemas.py omits them; they are modelled from
the spec (persistent identifier pair; many-to-many link rendered at read
time). -/
structure Agendapunt where
  pid : String
  pid_uuid : String
  webpaginalink : Option String := none
  organisatie : Organisatie
  dossiertype : String
  agendapuntnaam : String
  vergadering : VerwijzingNaarResource
  hoofdagendapunt : Option VerwijzingNaarResource := none
  omschrijving : Option String := none
  volgnummer : Option String := none
  subagendapunten : Option (List String) := none
  tussenkop : Option String := none
  overig : Option String := none
  starttijd : Option String := none
  eindtijd : Option String := none
  locatie : Option String := none
  geplandvolgnummer : Option String := none
  geplandeeindtijd : Option String := none
  geplandestarttijd : Option String := none
  indicatiehamerstuk : Option Bool := none
  indicatiebehandeld : Option Bool := none
  indicatiebesloten : Option Bool := none
  informatieobjecten : List String := []
deriving DecidableEq, Repr

/-- From src/app/schemas.py: `AgendapuntZonderPid` — the create payload. -/
structure AgendapuntZonderPid where
  webpaginalink : Option String := none
  organisatie : Organisatie
  dossiertype : String
  agendapuntnaam : String
  vergadering : VerwijzingNaarResource
  hoofdagendapunt : Option VerwijzingNaarResource := none
  omschrijving : Option String := none
  volgnummer : Option String := none
  subagendapunten : Option (List String) := none
  tussenkop : Option String := none
  overig : Option String := none
  starttijd : Option String := none
  eindtijd : Option String := none
  locatie : Option String := none
  geplandvolgnummer : Option String := none
  geplandeeindtijd : Option String := none
  geplandestarttijd : Option String := none
  indicatiehamerstuk : Option Bool := none
  indicatiebehandeld : Option Bool := none
  indicatiebesloten : Option Bool := none
deriving DecidableEq, Repr

/-- From src/app/schemas.py: the `InformatieObject` resource
representation (`InformatieObjectBase` plus `pid`); `pid_uuid` modelled
from the spec as for the other two resources. -/
structure InformatieObject where
  pid : String
  pid_uuid : String
  webpaginalink : String
  organisatie : Organisatie
  titel : String
  wooinformatiecategorie : String
  datumingediend : String
  id : Option String := none
  auteur : Option String := none
  bronorganisatie : Option String := none
  creatiedatum : Option String := none
  informatieobjecttype : Option String := none
  formaat : Option String := none
  omschrijving : Option String := none
  taal : Option String := none
  vergaderingen : Option (List VerwijzingNaarResource) := none
  agendapunten : Option (List VerwijzingNaarResource) := none
  gerelateerdinformatieobject : Option GerelateerdInformatieobject := none
deriving DecidableEq, Repr

/-- From src/app/schemas.py: `PaginatedAgendapuntList`. -/
structure PaginatedAgendapuntList where
  next : Option String := none
  previous : Option String := none
  results : List Agendapunt
deriving DecidableEq, Repr

namespace Vergaderingen

/-- From src/app/routers/vergaderingen.py: `db_to_schema`. Reconstructs the
organisatie union, builds the optional gremium (Python truthiness on both
string columns), renders the `hoofdvergadering` reference from the
internal foreign-key value (`str(db_vergadering.hoofdvergadering_id)` and
`f"/vergaderingen/{...}"`), and renders the `agendapunten` collection as
full URIs built from each related row's `pid_uuid`. -/
def db_to_schema (st : DBState) (db_vergadering : VergaderingDB) : Vergadering :=
  let organisatie := organisatieFromDB db_vergadering.organisatie_type
    db_vergadering.organisatie_code db_vergadering.organisatie_naam
  let gremium : Option Gremium :=
    if optStrTruthy db_vergadering.gremium_identificatie &&
        optStrTruthy db_vergadering.gremium_naam then
      some { gremiumidentificatie := db_vergadering.gremium_identificatie.getD ""
             gremiumnaam := db_vergadering.gremium_naam.getD "" }
    else none
  let hoofdvergadering_ref : Option VerwijzingNaarResource :=
    if optIntTruthy db_vergadering.hoofdvergadering_id then
      some { id := toString (db_vergadering.hoofdvergadering_id.getD 0)
             url := some ("/vergaderingen/" ++ toString (db_vergadering.hoofdvergadering_id.getD 0)) }
    else none
  let rel := vergaderingAgendapunten st db_vergadering
  let agendapunten_uris : List String :=
    if !rel.isEmpty then
      rel.map (fun agendapunt => API_SERVER ++ "/agendapunten/" ++ agendapunt.pid_uuid)
    else []
  { pid := API_SERVER ++ "/vergaderingen/" ++ db_vergadering.pid_uuid
    pid_uuid := db_vergadering.pid_uuid
    webpaginalink := db_vergadering.webpaginalink
    organisatie := organisatie
    dossiertype := db_vergadering.dossiertype
    naam := db_vergadering.naam
    aanvang := db_vergadering.aanvang
    hoofdvergadering := hoofdvergadering_ref
    einde := db_vergadering.einde
    georganiseerddoorgremium := gremium
    geplandeaanvang := db_vergadering.geplandeaanvang
    geplandeeinde := db_vergadering.geplandeeinde
    geplandedatum := db_vergadering.geplandedatum
    locatie := db_vergadering.locatie
    vergaderstatus := db_vergadering.vergaderstatus
    vergadertoelichting := db_vergadering.vergadertoelichting
    vergaderdatum := db_vergadering.vergaderdatum
    vergaderingstype := db_vergadering.vergaderingstype
    agendapunten := some agendapunten_uris }

/-- From src/app/routers/vergaderingen.py: `get_vergadering` (GET
`/vergaderingen/{id}`): look up by `pid_uuid`, 404 if absent, else render
through `db_to_schema` with the default 200 status. -/
def get_vergadering (st : DBState) (id : String) : ApiResult Vergadering :=
  match st.vergaderingen.find? (fun v => v.pid_uuid == id) with
  | none => .httpError 404 notFoundDetail
  | some vergadering => .ok 200 (db_to_schema st vergadering)

/-- From src/app/routers/vergaderingen.py: `post_vergadering` (POST
`/vergaderingen`, status 201). `generated_uuid` stands for the freshly
drawn `uuid.uuid4()`. The `hoofdvergadering` reference is resolved by
`int(...)` on the submitted id, with a parse failure silently leaving the
column `None`. The `VergaderingDB(...)` row construction is factored out
as `make_db_vergadering`. -/
def make_db_vergadering (st : DBState) (vergadering : VergaderingZonderPid)
    (generated_uuid : String) : VergaderingDB :=
  { id := nextId (st.vergaderingen.map (·.id))
    pid := API_SERVER ++ "/vergaderingen/" ++ generated_uuid
    pid_uuid := generated_uuid
    webpaginalink := vergadering.webpaginalink
    organisatie_type := organisatieType vergadering.organisatie
    organisatie_code := organisatieCode vergadering.organisatie
    organisatie_naam := organisatieNaam vergadering.organisatie
    dossiertype := vergadering.dossiertype
    naam := vergadering.naam
    aanvang := vergadering.aanvang
    hoofdvergadering_id := vergadering.hoofdvergadering.bind (fun ref => pyInt? ref.id)
    einde := vergadering.einde
    gremium_identificatie := vergadering.georganiseerddoorgremium.map (·.gremiumidentificatie)
    gremium_naam := vergadering.georganiseerddoorgremium.map (·.gremiumnaam)
    geplandeaanvang := vergadering.geplandeaanvang
    geplandeeinde := vergadering.geplandeeinde
    geplandedatum := vergadering.geplandedatum
    locatie := vergadering.locatie
    vergaderstatus := vergadering.vergaderstatus
    vergadertoelichting := vergadering.vergadertoelichting
    vergaderdatum := vergadering.vergaderdatum
    vergaderingstype := vergadering.vergaderingstype }

def post_vergadering (st : DBState) (vergadering : VergaderingZonderPid)
    (generated_uuid : String) : DBState × ApiResult Vergadering :=
  let db_vergadering := make_db_vergadering st vergadering generated_uuid
  let st2 : DBState := { st with vergaderingen := st.vergaderingen ++ [db_vergadering] }
  (st2, .ok 201 (db_to_schema st2 db_vergadering))

/-- The in-place column assignments of `put_vergadering`
(src/app/routers/vergaderingen.py): every attribute column is overwritten
from the submitted representation — including `pid_uuid` — while `id` and
`pid` are never assigned. An unparseable `hoofdvergadering` id keeps the
old column value (`except ... pass`); an absent reference clears it. -/
def updateVergaderingRow (r : VergaderingDB) (vergadering : Vergadering) : VergaderingDB :=
  { r with
    organisatie_type := organisatieType vergadering.organisatie
    organisatie_code := organisatieCode vergadering.organisatie
    organisatie_naam := organisatieNaam vergadering.organisatie
    webpaginalink := vergadering.webpaginalink
    dossiertype := vergadering.dossiertype
    naam := vergadering.naam
    pid_uuid := vergadering.pid_uuid
    aanvang := vergadering.aanvang
    hoofdvergadering_id :=
      match vergadering.hoofdvergadering with
      | some ref =>
        match pyInt? ref.id with
        | some n => some n
        | none => r.hoofdvergadering_id
      | none => none
    einde := vergadering.einde
    gremium_identificatie := vergadering.georganiseerddoorgremium.map (·.gremiumidentificatie)
    gremium_naam := vergadering.georganiseerddoorgremium.map (·.gremiumnaam)
    geplandeaanvang := vergadering.geplandeaanvang
    geplandeeinde := vergadering.geplandeeinde
    geplandedatum := vergadering.geplandedatum
    locatie := vergadering.locatie
    vergaderstatus := vergadering.vergaderstatus
    vergadertoelichting := vergadering.vergadertoelichting
    vergaderdatum := vergadering.vergaderdatum
    vergaderingstype := vergadering.vergaderingstype }

/-- Replace the first list element satisfying `p` by its image under `f`;
this is the effect on the table of mutating the row object returned by
`.first()` and committing the session. -/
def modifyFirst {α : Type} (p : α → Bool) (f : α → α) : List α → List α
  | [] => []
  | a :: t => if p a then f a :: t else a :: modifyFirst p f t

/-- From src/app/routers/vergaderingen.py: `put_vergadering` (PUT
`/vergaderingen/{id}`, status 201): look up by `pid_uuid`, 404 if absent,
otherwise overwrite the row's columns per `updateVergaderingRow` and
render the updated row. -/
def put_vergadering (st : DBState) (id : String) (vergadering : Vergadering) :
    DBState × ApiResult Vergadering :=
  match st.vergaderingen.find? (fun v => v.pid_uuid == id) with
  | none => (st, .httpError 404 notFoundDetail)
  | some r =>
    let r2 := updateVergaderingRow r vergadering
    let st2 : DBState :=
      { st with vergaderingen := modifyFirst (fun v => v.pid_uuid == id) (fun _ => r2) st.vergaderingen }
    (st2, .ok 201 (db_to_schema st2 r2))

/-- From src/app/routers/vergaderingen.py: `del_vergadering` (DELETE
`/vergaderingen/{id}`, status 200): look up by `pid_uuid`, 404 leaving the
store untouched if absent, otherwise delete that row and answer the fixed
confirmation message. -/
def del_vergadering (st : DBState) (id : String) : DBState × ApiResult String :=
  match st.vergaderingen.find? (fun v => v.pid_uuid == id) with
  | none => (st, .httpError 404 notFoundDetail)
  | some _ =>
    ({ st with vergaderingen := st.vergaderingen.eraseP (fun v => v.pid_uuid == id) },
     .ok 200 "Verwijderactie geslaagd")

end Vergaderingen

namespace Agendapunten

/-- From src/app/routers/agendapunten.py: `db_to_schema`. The `vergadering`
reference is rendered from the internal foreign-key value (`str(...)` /
`f"/vergaderingen/{...}"`, empty id and `None` url when the column is
falsy), the optional `hoofdagendapunt` reference likewise from its
internal id, and the `informatieobjecten` collection as full URIs built
from each linked row's `pid_uuid`. -/
def db_to_schema (st : DBState) (db_agendapunt : AgendapuntDB) : Agendapunt :=
  let organisatie := organisatieFromDB db_agendapunt.organisatie_type
    db_agendapunt.organisatie_code db_agendapunt.organisatie_naam
  let vergadering_ref : VerwijzingNaarResource :=
    { id := if optIntTruthy db_agendapunt.vergadering_id then
        toString (db_agendapunt.vergadering_id.getD 0) else ""
      url := if optIntTruthy db_agendapunt.vergadering_id then
        some ("/vergaderingen/" ++ toString (db_agendapunt.vergadering_id.getD 0)) else none }
  let hoofdagendapunt_ref : Option VerwijzingNaarResource :=
    if optIntTruthy db_agendapunt.hoofdagendapunt_id then
      some { id := toString (db_agendapunt.hoofdagendapunt_id.getD 0)
             url := some ("/agendapunten/" ++ toString (db_agendapunt.hoofdagendapunt_id.getD 0)) }
    else none
  let rel := agendapuntInformatieobjecten st db_agendapunt
  let informatieobjecten_uris : List String :=
    if !rel.isEmpty then
      rel.map (fun informatieobject => API_SERVER ++ "/informatieobjecten/" ++ informatieobject.pid_uuid)
    else []
  { pid := API_SERVER ++ "/agendapunten/" ++ db_agendapunt.pid_uuid
    pid_uuid := db_agendapunt.pid_uuid
    webpaginalink := db_agendapunt.webpaginalink
    organisatie := organisatie
    dossiertype := db_agendapunt.dossiertype
    agendapuntnaam := db_agendapunt.agendapuntnaam
    vergadering := vergadering_ref
    hoofdagendapunt := hoofdagendapunt_ref
    omschrijving := db_agendapunt.omschrijving
    volgnummer := db_agendapunt.volgnummer
    tussenkop := db_agendapunt.tussenkop
    overig := db_agendapunt.overig
    starttijd := db_agendapunt.starttijd
    eindtijd := db_agendapunt.eindtijd
    locatie := db_agendapunt.locatie
    geplandvolgnummer := db_agendapunt.geplandvolgnummer
    geplandeeindtijd := db_agendapunt.geplandeeindtijd
    geplandestarttijd := db_agendapunt.geplandestarttijd
    indicatiehamerstuk := db_agendapunt.indicatiehamerstuk
    indicatiebehandeld := db_agendapunt.indicatiebehandeld
    indicatiebesloten := db_agendapunt.indicatiebesloten
    informatieobjecten := informatieobjecten_uris }

/-- From src/app/routers/agendapunten.py: `get_agendapunten` (GET
`/agendapunten`): with a truthy `vergadering_pid` the meeting is looked up
by its stored `pid` and, when the lookup yields no truthy internal id, the
handler answers 404; otherwise the rows with that `vergadering_id` (or all
rows, without filter) are rendered, with `next` and `previous` always
`None`. -/
def get_agendapunten (st : DBState) (vergadering_pid : Option String) :
    ApiResult PaginatedAgendapuntList :=
  let render := fun (aps : List AgendapuntDB) =>
    ApiResult.ok 200
      { next := none, previous := none, results := aps.map (db_to_schema st) }
  if optStrTruthy vergadering_pid then
    let vp := vergadering_pid.getD ""
    let internal_id : Option Int := (st.vergaderingen.find? (fun v => v.pid == vp)).map (·.id)
    if optIntTruthy internal_id then
      render (st.agendapunten.filter (fun ap => ap.vergadering_id == internal_id))
    else .httpError 404 "De gevraagde vergadering is niet gevonden."
  else render st.agendapunten

/-- From src/app/routers/agendapunten.py: `post_agendapunt` (POST
`/agendapunten`, status 201). The submitted `vergadering` reference, when
its id is truthy, is stripped to its trailing segment and resolved against
the meetings' `pid_uuid` column; the stored column is
`int(... .first() or 0)`, i.e. the found internal id or `0` when no
meeting matches. The `hoofdagendapunt` reference is `int(...)`-parsed with
a failure silently leaving the column `None`. The `AgendapuntDB(...)` row
construction is factored out as `make_db_agendapunt`. -/
def make_db_agendapunt (st : DBState) (agendapunt : AgendapuntZonderPid)
    (generated_uuid : String) : AgendapuntDB :=
  { id := nextId (st.agendapunten.map (·.id))
    pid := API_SERVER ++ "/agendapunten/" ++ generated_uuid
    pid_uuid := generated_uuid
    webpaginalink := agendapunt.webpaginalink
    organisatie_type := organisatieType agendapunt.organisatie
    organisatie_code := organisatieCode agendapunt.organisatie
    organisatie_naam := organisatieNaam agendapunt.organisatie
    dossiertype := agendapunt.dossiertype
    agendapuntnaam := agendapunt.agendapuntnaam
    vergadering_id :=
      if !agendapunt.vergadering.id.isEmpty then
        some (((st.vergaderingen.find?
          (fun v => v.pid_uuid == trailingSegment agendapunt.vergadering.id)).map (·.id)).getD 0)
      else none
    hoofdagendapunt_id := agendapunt.hoofdagendapunt.bind (fun ref => pyInt? ref.id)
    omschrijving := agendapunt.omschrijving
    volgnummer := agendapunt.volgnummer
    tussenkop := agendapunt.tussenkop
    overig := agendapunt.overig
    starttijd := agendapunt.starttijd
    eindtijd := agendapunt.eindtijd
    locatie := agendapunt.locatie
    geplandvolgnummer := agendapunt.geplandvolgnummer
    geplandeeindtijd := agendapunt.geplandeeindtijd
    geplandestarttijd := agendapunt.geplandestarttijd
    indicatiehamerstuk := agendapunt.indicatiehamerstuk
    indicatiebehandeld := agendapunt.indicatiebehandeld
    indicatiebesloten := agendapunt.indicatiebesloten }

def post_agendapunt (st : DBState) (agendapunt : AgendapuntZonderPid)
    (generated_uuid : String) : DBState × ApiResult Agendapunt :=
  let db_agendapunt := make_db_agendapunt st agendapunt generated_uuid
  let st2 : DBState := { st with agendapunten := st.agendapunten ++ [db_agendapunt] }
  (st2, .ok 201 (db_to_schema st2 db_agendapunt))

end Agendapunten

namespace Informatieobjecten

/-- From src/app/routers/informatieobjecten.py: `db_to_schema`. The
`agendapunten` collection is rendered as reference objects whose `id` and
`url` are both the full URI built from each linked row's `pid_uuid`
(`None` when the relationship list is falsy). The `vergaderingen` and
`gerelateerdinformatieobject` fields are not passed to the constructor and
keep their schema default `None`. -/
def db_to_schema (st : DBState) (db_obj : InformatieObjectDB) : InformatieObject :=
  let organisatie := organisatieFromDB db_obj.organisatie_type
    db_obj.organisatie_code db_obj.organisatie_naam
  let rel := informatieobjectAgendapunten st db_obj
  let agendapunten_refs : Option (List VerwijzingNaarResource) :=
    if !rel.isEmpty then
      some (rel.map (fun agendapunt =>
        { id := API_SERVER ++ "/agendapunten/" ++ agendapunt.pid_uuid
          url := some (API_SERVER ++ "/agendapunten/" ++ agendapunt.pid_uuid) }))
    else none
  { pid := API_SERVER ++ "/informatieobjecten/" ++ db_obj.pid_uuid
    pid_uuid := db_obj.pid_uuid
    webpaginalink := db_obj.webpaginalink
    organisatie := organisatie
    titel := db_obj.titel
    wooinformatiecategorie := db_obj.wooinformatiecategorie
    datumingediend := db_obj.datumingediend
    id := db_obj.external_id
    auteur := db_obj.auteur
    bronorganisatie := db_obj.bronorganisatie
    creatiedatum := db_obj.creatiedatum
    informatieobjecttype := db_obj.informatieobjecttype
    formaat := db_obj.formaat
    omschrijving := db_obj.omschrijving
    taal := db_obj.taal
    agendapunten := agendapunten_refs }

end Informatieobjecten

/-- Modelled from the spec: a meeting's visible information-objects
collection — "union, over every agenda item belonging to that meeting, of
every information object linked to that agenda item — with duplicates
removed (by the information object's identity) so each appears once".
No code under src/ computes this rollup; the repository's own test
`test_vergadering_includes_informatieobjecten_via_agendapunten` expects
it. Deduplication keeps each object's first occurrence, keyed by its
identity. -/
def spec_vergadering_informatieobjecten (st : DBState) (v : VergaderingDB) :
    List InformatieObjectDB :=
  let linked := (vergaderingAgendapunten st v).flatMap (fun ap => agendapuntInformatieobjecten st ap)
  (linked.foldl
    (fun (acc : List InformatieObjectDB × List Int) io =>
      if acc.2.contains io.id then acc else (acc.1 ++ [io], io.id :: acc.2))
    ([], [])).1

/-- Modelled from the spec: an information object's visible meetings
collection — "the set of distinct meetings reached by following its linked
agenda items to their owning meeting". No code under src/ computes this
rollup; the repository's own test
`test_informatieobject_includes_vergaderingen_via_agendapunten` expects
it. Deduplication keeps each meeting's first occurrence, keyed by its
identity. -/
def spec_informatieobject_vergaderingen (st : DBState) (io : InformatieObjectDB) :
    List VergaderingDB :=
  let reached := (informatieobjectAgendapunten st io).filterMap (fun ap =>
    ap.vergadering_id.bind (fun vid => st.vergaderingen.find? (fun v => v.id == vid)))
  (reached.foldl
    (fun (acc : List VergaderingDB × List Int) v =>
      if acc.2.contains v.id then acc else (acc.1 ++ [v], v.id :: acc.2))
    ([], [])).1

/-! ## Helper lemmas -/

theorem find?_append_of_forall_neg {α : Type} (p : α → Bool) (l1 l2 : List α)
    (h : ∀ x ∈ l1, p x = false) : (l1 ++ l2).find? p = l2.find? p := by
  induction l1 with
  | nil => simp
  | cons a t ih =>
    have ha := h a (by simp)
    rw [List.cons_append, List.find?_cons_of_neg _ (by simp [ha])]
    exact ih (fun x hx => h x (by simp [hx]))

theorem countP_le_one_find?_eraseP {α : Type} (p : α → Bool) :
    ∀ l : List α, l.countP p ≤ 1 → (l.eraseP p).find? p = none := by
  intro l
  induction l with
  | nil => simp
  | cons a t ih =>
    intro hc
    by_cases hp : p a
    · rw [List.eraseP_cons_of_pos hp]
      rw [List.countP_cons, if_pos hp] at hc
      have ht : t.countP p = 0 := by omega
      rw [List.find?_eq_none]
      intro x hx hpx
      have := (List.countP_eq_zero.mp ht) x hx
      simp [hpx] at this
    · rw [List.eraseP_cons_of_neg hp]
      rw [List.find?_cons_of_neg _ (by simp [hp])]
      apply ih
      rw [List.countP_cons, if_neg hp] at hc
      omega

theorem modifyFirst_length {α : Type} (p : α → Bool) (f : α → α) :
    ∀ l : List α, (Vergaderingen.modifyFirst p f l).length = l.length := by
  intro l
  induction l with
  | nil => rfl
  | cons a t ih =>
    by_cases hp : p a
    · simp [Vergaderingen.modifyFirst, hp]
    · simp [Vergaderingen.modifyFirst, hp, ih]

theorem modifyFirst_find?_spec {α : Type} (p : α → Bool) (f : α → α) :
    ∀ (l : List α) (r : α), l.find? p = some r →
      ∃ i : Nat, l[i]? = some r ∧ (Vergaderingen.modifyFirst p f l)[i]? = some (f r) := by
  intro l
  induction l with
  | nil => intro r h; simp at h
  | cons a t ih =>
    intro r h
    by_cases hp : p a
    · rw [List.find?_cons_of_pos _ hp] at h
      obtain rfl : a = r := by simpa using h
      exact ⟨0, by simp, by simp [Vergaderingen.modifyFirst, hp]⟩
    · rw [List.find?_cons_of_neg _ hp] at h
      obtain ⟨i, h1, h2⟩ := ih r h
      refine ⟨i + 1, by simpa using h1, ?_⟩
      simpa [Vergaderingen.modifyFirst, hp] using h2

theorem modifyFirst_getElem?_of_neg {α : Type} (p : α → Bool) (f : α → α) :
    ∀ (l : List α) (i : Nat) (x : α), l[i]? = some x → p x = false →
      (Vergaderingen.modifyFirst p f l)[i]? = some x := by
  intro l
  induction l with
  | nil => intro i x h; simp at h
  | cons a t ih =>
    intro i x h hpx
    cases i with
    | zero =>
      obtain rfl : a = x := by simpa using h
      simp [Vergaderingen.modifyFirst, hpx]
    | succ i =>
      by_cases hp : p a
      · simpa [Vergaderingen.modifyFirst, hp] using h
      · simp only [Vergaderingen.modifyFirst, if_neg hp, List.getElem?_cons_succ]
        exact ih i x (by simpa using h) hpx

theorem mem_if_map {α : Type} (rel : List α) (f : α → String) (uri : String)
    (h : uri ∈ (if !rel.isEmpty then rel.map f else [])) : ∃ a ∈ rel, uri = f a := by
  by_cases he : rel.isEmpty
  · simp [he] at h
  · simp only [he, Bool.not_false, if_true, List.mem_map] at h
    obtain ⟨a, ha, rfl⟩ := h
    exact ⟨a, ha, rfl⟩

/-! ## Concrete fixtures -/

/-- The meeting of the scenario of the repository's test
`test_vergadering_includes_informatieobjecten_via_agendapunten`. -/
def vergC1 : VergaderingDB :=
  { id := 1
    pid := "http://localhost:8000/vergaderingen/verg-uuid-1"
    pid_uuid := "verg-uuid-1"
    organisatie_type := "gemeente"
    organisatie_code := "gm0363"
    organisatie_naam := "Gemeente Amsterdam"
    dossiertype := "vergadering"
    naam := "Raadsvergadering" }

def agpC1 (n : Int) (u nm : String) : AgendapuntDB :=
  { id := n
    pid := "http://localhost:8000/agendapunten/" ++ u
    pid_uuid := u
    organisatie_type := "gemeente"
    organisatie_code := "gm0363"
    organisatie_naam := "Gemeente Amsterdam"
    dossiertype := "agendapunt"
    agendapuntnaam := nm
    vergadering_id := some 1 }

def ioC1 (n : Int) (u nm : String) : InformatieObjectDB :=
  { id := n
    pid := "http://localhost:8000/informatieobjecten/" ++ u
    pid_uuid := u
    webpaginalink := "https://example.com/doc"
    organisatie_type := "gemeente"
    organisatie_code := "gm0363"
    organisatie_naam := "Gemeente Amsterdam"
    titel := nm
    wooinformatiecategorie := "c_db4862c3"
    datumingediend := "2017-02-09" }

/-- State of the C1 scenario: one meeting with agenda items A and B,
A linked to information objects X and Y, B linked to Y and Z. -/
def stC1 : DBState :=
  { vergaderingen := [vergC1]
    agendapunten := [agpC1 1 "agp-uuid-1" "Agendapunt 1", agpC1 2 "agp-uuid-2" "Agendapunt 2"]
    informatieobjecten :=
      [ioC1 1 "info-uuid-1" "Document 1", ioC1 2 "info-uuid-2" "Document 2",
       ioC1 3 "info-uuid-3" "Document 3"]
    links := [{ agendapunt_id := 1, informatieobject_id := 1 },
              { agendapunt_id := 1, informatieobject_id := 2 },
              { agendapunt_id := 2, informatieobject_id := 2 },
              { agendapunt_id := 2, informatieobject_id := 3 }] }

/-- State of the C2 scenario (the repository's test
`test_informatieobject_includes_vergaderingen_via_agendapunten`): one
information object linked to three agenda items, two belonging to
meeting a and one to meeting b. -/
def stC2 : DBState :=
  { vergaderingen :=
      [{ vergC1 with
          id := 1
          pid := "http://localhost:8000/vergaderingen/verg-uuid-a"
          pid_uuid := "verg-uuid-a" },
       { vergC1 with
          id := 2
          pid := "http://localhost:8000/vergaderingen/verg-uuid-b"
          pid_uuid := "verg-uuid-b" }]
    agendapunten :=
      [agpC1 1 "agp-uuid-1" "Agendapunt 1", agpC1 2 "agp-uuid-2" "Agendapunt 2",
       { (agpC1 3 "agp-uuid-3" "Agendapunt 3") with vergadering_id := some 2 }]
    informatieobjecten := [ioC1 1 "info-uuid-1" "Document 1"]
    links := [{ agendapunt_id := 1, informatieobject_id := 1 },
              { agendapunt_id := 2, informatieobject_id := 1 },
              { agendapunt_id := 3, informatieobject_id := 1 }] }

/-- State of the C3 counterexample: an agenda item whose `vergadering_id`
foreign key is the internal key 7 of a stored meeting whose external
identifier is a UUID. -/
def stC3 : DBState :=
  { vergaderingen :=
      [{ vergC1 with
          id := 7
          pid := "http://localhost:8000/vergaderingen/6fa459ea-ee8a-3ca4-894e-db77e160355e"
          pid_uuid := "6fa459ea-ee8a-3ca4-894e-db77e160355e" }]
    agendapunten := [{ (agpC1 1 "agp-uuid-x" "Agendapunt X") with vergadering_id := some 7 }] }

def apC3 : AgendapuntDB := { (agpC1 1 "agp-uuid-x" "Agendapunt X") with vergadering_id := some 7 }

/-- Create payload of the C4 counterexample: a reference to a meeting UUID
the store does not know. -/
def apReqC4 : AgendapuntZonderPid :=
  { organisatie := .gemeente "gm0363" "Gemeente Amsterdam"
    dossiertype := "agendapunt"
    agendapuntnaam := "Begrotingsbespreking"
    vergadering := { id := "22222222-2222-2222-2222-222222222222"
                     url := some "http://localhost:8000/vergaderingen/22222222-2222-2222-2222-222222222222" } }

/-! ## Claims -/

/-- C1: the claim states that reading a meeting yields an
information-objects collection equal to the de-duplicated union, over the
meeting's agenda items, of their linked information objects. On the
scenario of the repository's own test
`test_vergadering_includes_informatieobjecten_via_agendapunten` (agenda
item A linked to X and Y, agenda item B linked to Y and Z), the
spec-mandated rollup contains exactly the three distinct objects X, Y, Z —
but the representation the code actually renders (translated
field-for-field from `db_to_schema` in src/app/routers/vergaderingen.py
and the `Vergadering` schema of src/app/schemas.py, which has no
information-objects field at all) carries only the agenda-item URIs and no
information-objects collection. The code contradicts its own test, so the
claim is a code bug, witnessed here by evaluating both sides on that
state. -/
theorem claim_C1_meeting_informatieobjecten_not_rendered :
    (spec_vergadering_informatieobjecten stC1 vergC1).map (·.pid_uuid) =
      ["info-uuid-1", "info-uuid-2", "info-uuid-3"] ∧
    ((spec_vergadering_informatieobjecten stC1 vergC1).map (·.pid_uuid)).Nodup ∧
    Vergaderingen.db_to_schema stC1 vergC1 =
      { pid := "http://localhost:8000/vergaderingen/verg-uuid-1"
        pid_uuid := "verg-uuid-1"
        organisatie := .gemeente "gm0363" "Gemeente Amsterdam"
        dossiertype := "vergadering"
        naam := "Raadsvergadering"
        agendapunten := some ["http://localhost:8000/agendapunten/agp-uuid-1",
                              "http://localhost:8000/agendapunten/agp-uuid-2"] } := by
  refine ⟨by decide, by decide, by decide⟩

/-- C2: the claim states that reading an information object yields a
`vergaderingen` collection equal to the set of distinct meetings reached
through its linked agenda items. The code's `db_to_schema`
(src/app/routers/informatieobjecten.py) never passes `vergaderingen`, so
for EVERY stored information object in EVERY state the rendered collection
is `None` — while on the scenario of the repository's own test
`test_informatieobject_includes_vergaderingen_via_agendapunten` (one
object linked to agenda items of meetings a and b) the spec-mandated
rollup contains exactly the two distinct meetings. The code contradicts
its own test, so the claim is a code bug. -/
theorem claim_C2_informatieobject_vergaderingen_not_rendered :
    (∀ (st : DBState) (io : InformatieObjectDB),
        (Informatieobjecten.db_to_schema st io).vergaderingen = none) ∧
    (spec_informatieobject_vergaderingen stC2 (ioC1 1 "info-uuid-1" "Document 1")).map
        (·.pid_uuid) = ["verg-uuid-a", "verg-uuid-b"] := by
  exact ⟨fun _ _ => rfl, by decide⟩

/-- C3 counterexample: the claim states that no rendered payload ever
contains an internal surrogate (integer) identifier and that every
reference is rendered from the target's `pid_uuid`. In the state `stC3`
the stored meeting has internal key 7 and external identifier
`6fa459ea-...`; reading the agenda item that references it renders the
reference as `{id: "7", url: "/vergaderingen/7"}` — the internal integer
key, which is not the `pid_uuid` of any stored meeting. -/
theorem claim_C3_counterexample_internal_id_rendered :
    (Agendapunten.db_to_schema stC3 apC3).vergadering =
      { id := "7", url := some "/vergaderingen/7" } ∧
    ((stC3.vergaderingen.map (·.pid_uuid)).contains "7") = false := by
  exact ⟨by decide, by decide⟩

/-- C3 amended: in every rendered payload the many-to-many collections
(an agenda item's information objects, a meeting's agenda items) are
rendered as URIs built from the target's `pid_uuid`, but the direct parent
references (an agenda item's owning meeting, a parent agenda item, a
parent meeting) are rendered from the target's internal integer key, not
from its `pid_uuid`-based external identifier. -/
theorem claim_C3_amended_reference_rendering (st : DBState) (ap : AgendapuntDB)
    (v : VergaderingDB) :
    (∀ uri ∈ (Agendapunten.db_to_schema st ap).informatieobjecten,
        ∃ io ∈ agendapuntInformatieobjecten st ap,
          uri = API_SERVER ++ "/informatieobjecten/" ++ io.pid_uuid) ∧
    (∀ uri ∈ ((Vergaderingen.db_to_schema st v).agendapunten.getD []),
        ∃ a ∈ vergaderingAgendapunten st v,
          uri = API_SERVER ++ "/agendapunten/" ++ a.pid_uuid) ∧
    (∀ i : Int, ap.vergadering_id = some i → i ≠ 0 →
        (Agendapunten.db_to_schema st ap).vergadering =
          { id := toString i, url := some ("/vergaderingen/" ++ toString i) }) ∧
    (∀ i : Int, ap.hoofdagendapunt_id = some i → i ≠ 0 →
        (Agendapunten.db_to_schema st ap).hoofdagendapunt =
          some { id := toString i, url := some ("/agendapunten/" ++ toString i) }) ∧
    (∀ i : Int, v.hoofdvergadering_id = some i → i ≠ 0 →
        (Vergaderingen.db_to_schema st v).hoofdvergadering =
          some { id := toString i, url := some ("/vergaderingen/" ++ toString i) }) := by
  refine ⟨?_, ?_, ?_, ?_, ?_⟩
  · intro uri h
    exact mem_if_map _ _ _ h
  · intro uri h
    exact mem_if_map _ _ _ h
  · intro i hi hne
    simp [Agendapunten.db_to_schema, hi, optIntTruthy, bne_iff_ne, hne]
  · intro i hi hne
    simp [Agendapunten.db_to_schema, hi, optIntTruthy, bne_iff_ne, hne]
  · intro i hi hne
    simp [Vergaderingen.db_to_schema, hi, optIntTruthy, bne_iff_ne, hne]

/-- C3 amended, witnessed on the `stC3` fixture. -/
theorem claim_C3_amended_reference_rendering_witness :
    (Agendapunten.db_to_schema stC3 apC3).vergadering =
      { id := toString (7 : Int), url := some ("/vergaderingen/" ++ toString (7 : Int)) } :=
  (claim_C3_amended_reference_rendering stC3 apC3 vergC1).2.2.1 7 (by decide) (by decide)

/-- C9: the organisatie reconstruction performed on every read is total in
the stored discriminator — `"gemeente"` yields `Gemeente`, `"provincie"`
yields `Provincie`, and every other stored string yields a `Waterschap`
carrying the stored code and name — and flattening any of the three
variants on create and reconstructing on read is the identity. -/
theorem claim_C9_organisatie_total_roundtrip :
    (∀ o : Organisatie,
        organisatieFromDB (organisatieType o) (organisatieCode o) (organisatieNaam o) = o) ∧
    (∀ code naam : String, organisatieFromDB "gemeente" code naam = .gemeente code naam) ∧
    (∀ code naam : String, organisatieFromDB "provincie" code naam = .provincie code naam) ∧
    (∀ ty code naam : String, ty ≠ "gemeente" → ty ≠ "provincie" →
        organisatieFromDB ty code naam = .waterschap code naam) := by
  refine ⟨?_, ?_, ?_, ?_⟩
  · intro o
    cases o with
    | gemeente code naam => rw [organisatieType, organisatieCode, organisatieNaam,
        organisatieFromDB, if_pos rfl]
    | provincie code naam => rw [organisatieType, organisatieCode, organisatieNaam,
        organisatieFromDB, if_neg (by decide), if_pos rfl]
    | waterschap code naam => rw [organisatieType, organisatieCode, organisatieNaam,
        organisatieFromDB, if_neg (by decide), if_neg (by decide)]
  · intro code naam
    rw [organisatieFromDB, if_pos rfl]
  · intro code naam
    rw [organisatieFromDB, if_neg (by decide), if_pos rfl]
  · intro ty code naam h1 h2
    rw [organisatieFromDB, if_neg h1, if_neg h2]

/-- C9, witnessed: an unknown discriminator such as `"stadsdeel"`
reconstructs as a `Waterschap` with the stored code and name. -/
theorem claim_C9_organisatie_total_roundtrip_witness :
    organisatieFromDB "stadsdeel" "sd01" "Stadsdeel Zuid" = .waterschap "sd01" "Stadsdeel Zuid" :=
  claim_C9_organisatie_total_roundtrip.2.2.2 "stadsdeel" "sd01" "Stadsdeel Zuid"
    (by decide) (by decide)

/-- C4 counterexample: the claim states that an unresolvable reference in
a create request leaves the stored foreign-key column unset. POSTing an
agenda item against an empty store with a `vergadering` reference to an
unknown UUID succeeds (status 201), but the stored `vergadering_id`
column is `0` (`int(... .first() or 0)` in
src/app/routers/agendapunten.py), not left unset. -/
theorem claim_C4_counterexample_fk_zero :
    ((Agendapunten.post_agendapunt {} apReqC4 "44444444-4444-4444-4444-444444444444").1.agendapunten.map
        (·.vergadering_id)) = [some 0] ∧
    (∃ body, (Agendapunten.post_agendapunt {} apReqC4 "44444444-4444-4444-4444-444444444444").2 =
        .ok 201 body) := by
  exact ⟨by decide, ⟨_, rfl⟩⟩

/-- C4 amended: a create request with an unresolvable reference still
succeeds (status 201) and surfaces no error; a `hoofdvergadering`
reference whose id does not parse as an integer silently leaves the
foreign-key column unset, while an agenda item's `vergadering` reference
whose UUID matches no stored meeting stores internal id `0` — a sentinel
matching no engine-assigned row, rendered as an absent reference. -/
theorem claim_C4_amended_lenient_reference_resolution
    (st : DBState) (v : VergaderingZonderPid) (ap : AgendapuntZonderPid) (u : String)
    (ref : VerwijzingNaarResource)
    (href : v.hoofdvergadering = some ref) (hparse : pyInt? ref.id = none)
    (hne : ap.vergadering.id ≠ "")
    (hmiss : st.vergaderingen.find?
      (fun x => x.pid_uuid == trailingSegment ap.vergadering.id) = none) :
    ((Vergaderingen.post_vergadering st v u).1.vergaderingen =
        st.vergaderingen ++ [Vergaderingen.make_db_vergadering st v u] ∧
      (Vergaderingen.make_db_vergadering st v u).hoofdvergadering_id = none ∧
      ∃ body, (Vergaderingen.post_vergadering st v u).2 = .ok 201 body) ∧
    ((Agendapunten.post_agendapunt st ap u).1.agendapunten =
        st.agendapunten ++ [Agendapunten.make_db_agendapunt st ap u] ∧
      (Agendapunten.make_db_agendapunt st ap u).vergadering_id = some 0 ∧
      (Agendapunten.db_to_schema (Agendapunten.post_agendapunt st ap u).1
          (Agendapunten.make_db_agendapunt st ap u)).vergadering = { id := "", url := none } ∧
      ∃ body, (Agendapunten.post_agendapunt st ap u).2 = .ok 201 body) := by
  have hisE : ap.vergadering.id.isEmpty = false := by
    rw [Bool.eq_false_iff]
    intro h
    exact hne ((String.isEmpty_iff _).mp h)
  have hvid : (Agendapunten.make_db_agendapunt st ap u).vergadering_id = some 0 := by
    simp [Agendapunten.make_db_agendapunt, hisE, hmiss]
  have hhv : (Vergaderingen.make_db_vergadering st v u).hoofdvergadering_id = none := by
    show v.hoofdvergadering.bind (fun r => pyInt? r.id) = none
    rw [href, Option.some_bind, hparse]
  refine ⟨⟨rfl, hhv, _, rfl⟩, rfl, hvid, ?_, _, rfl⟩
  simp [Agendapunten.db_to_schema, hvid, optIntTruthy]

/-- Fixture create payload for the C4 and C5 witnesses: a meeting with an
unparseable `hoofdvergadering` reference id. -/
def vReqW : VergaderingZonderPid :=
  { organisatie := .gemeente "gm0363" "Gemeente Amsterdam"
    dossiertype := "vergadering"
    naam := "Raadsvergadering"
    hoofdvergadering := some { id := "55555555-5555-5555-5555-555555555555" } }

/-- C4 amended, witnessed on an empty store with an unparseable
`hoofdvergadering` id and an unknown meeting UUID. -/
theorem claim_C4_amended_lenient_reference_resolution_witness :
    ((Vergaderingen.post_vergadering {} vReqW "66666666-6666-6666-6666-666666666666").1.vergaderingen =
        DBState.vergaderingen {} ++
          [Vergaderingen.make_db_vergadering {} vReqW "66666666-6666-6666-6666-666666666666"] ∧
      (Vergaderingen.make_db_vergadering {} vReqW
          "66666666-6666-6666-6666-666666666666").hoofdvergadering_id = none ∧
      ∃ body, (Vergaderingen.post_vergadering {} vReqW "66666666-6666-6666-6666-666666666666").2 =
        .ok 201 body) ∧
    ((Agendapunten.post_agendapunt {} apReqC4 "66666666-6666-6666-6666-666666666666").1.agendapunten =
        DBState.agendapunten {} ++
          [Agendapunten.make_db_agendapunt {} apReqC4 "66666666-6666-6666-6666-666666666666"] ∧
      (Agendapunten.make_db_agendapunt {} apReqC4
          "66666666-6666-6666-6666-666666666666").vergadering_id = some 0 ∧
      (Agendapunten.db_to_schema
          (Agendapunten.post_agendapunt {} apReqC4 "66666666-6666-6666-6666-666666666666").1
          (Agendapunten.make_db_agendapunt {} apReqC4
            "66666666-6666-6666-6666-666666666666")).vergadering = { id := "", url := none } ∧
      ∃ body, (Agendapunten.post_agendapunt {} apReqC4 "66666666-6666-6666-6666-666666666666").2 =
        .ok 201 body) :=
  claim_C4_amended_lenient_reference_resolution {} vReqW apReqC4
    "66666666-6666-6666-6666-666666666666"
    { id := "55555555-5555-5555-5555-555555555555" } rfl (by decide) (by decide) (by decide)

/-- Auxiliary read lemma: when the lookup by `pid_uuid` finds a row, the
GET handler answers 200 with that row's rendering. -/
theorem get_vergadering_found (st : DBState) (uid : String) (r : VergaderingDB)
    (h : st.vergaderingen.find? (fun v => v.pid_uuid == uid) = some r) :
    Vergaderingen.get_vergadering st uid = .ok 200 (Vergaderingen.db_to_schema st r) := by
  rw [Vergaderingen.get_vergadering, h]

/-- C5: a GET using the UUID embedded in the persistent identifier
returned by a successful POST answers status 200 with exactly the
representation the POST returned, provided the freshly drawn UUID does not
collide with the `pid_uuid` of any row already stored (the uniqueness the
identifier scheme relies on). -/
theorem claim_C5_post_get_roundtrip (st : DBState) (v : VergaderingZonderPid) (u : String)
    (hfresh : ∀ r ∈ st.vergaderingen, r.pid_uuid ≠ u) :
    ∃ st2 body,
      Vergaderingen.post_vergadering st v u = (st2, .ok 201 body) ∧
      body.pid = API_SERVER ++ "/vergaderingen/" ++ body.pid_uuid ∧
      Vergaderingen.get_vergadering st2 body.pid_uuid = .ok 200 body := by
  refine ⟨_, _, rfl, rfl, ?_⟩
  have hfind : ((st.vergaderingen ++ [Vergaderingen.make_db_vergadering st v u]).find?
      (fun r => r.pid_uuid == u)) = some (Vergaderingen.make_db_vergadering st v u) := by
    rw [find?_append_of_forall_neg _ _ _ (fun x hx => by simpa using hfresh x hx)]
    exact List.find?_cons_of_pos _ (by simp [Vergaderingen.make_db_vergadering])
  exact get_vergadering_found _ _ _ hfind

/-- C5, witnessed: posting a meeting to the empty store and reading back
the returned identifier round-trips. -/
theorem claim_C5_post_get_roundtrip_witness :
    ∃ st2 body,
      Vergaderingen.post_vergadering {} vReqW "77777777-7777-7777-7777-777777777777" =
        (st2, .ok 201 body) ∧
      body.pid = API_SERVER ++ "/vergaderingen/" ++ body.pid_uuid ∧
      Vergaderingen.get_vergadering st2 body.pid_uuid = .ok 200 body :=
  claim_C5_post_get_roundtrip {} vReqW "77777777-7777-7777-7777-777777777777" (by simp)

/-- C6: for a stored meeting (with the identifier matching at most one
row, the uniqueness invariant of the identifier scheme), DELETE by its
external uuid identifier answers 200 with the fixed confirmation body and
removes the row, so a subsequent GET by the same identifier answers 404;
DELETE with an identifier matching no stored row answers 404 and leaves
the store unchanged. -/
theorem claim_C6_delete_semantics (st : DBState) (uid : String)
    (huniq : st.vergaderingen.countP (fun v => v.pid_uuid == uid) ≤ 1) :
    (∀ r, st.vergaderingen.find? (fun v => v.pid_uuid == uid) = some r →
      ∃ st2,
        Vergaderingen.del_vergadering st uid = (st2, .ok 200 "Verwijderactie geslaagd") ∧
        Vergaderingen.get_vergadering st2 uid = .httpError 404 notFoundDetail ∧
        st2.vergaderingen = st.vergaderingen.eraseP (fun v => v.pid_uuid == uid) ∧
        st2.agendapunten = st.agendapunten ∧
        st2.informatieobjecten = st.informatieobjecten ∧
        st2.links = st.links) ∧
    (st.vergaderingen.find? (fun v => v.pid_uuid == uid) = none →
      Vergaderingen.del_vergadering st uid = (st, .httpError 404 notFoundDetail)) := by
  constructor
  · intro r hr
    rw [Vergaderingen.del_vergadering, hr]
    refine ⟨_, rfl, ?_, rfl, rfl, rfl, rfl⟩
    rw [Vergaderingen.get_vergadering]
    rw [show ({ st with vergaderingen := st.vergaderingen.eraseP (fun v => v.pid_uuid == uid) } :
        DBState).vergaderingen = st.vergaderingen.eraseP (fun v => v.pid_uuid == uid) from rfl]
    rw [countP_le_one_find?_eraseP _ _ huniq]
  · intro h
    rw [Vergaderingen.del_vergadering, h]

/-- Fixture row and store for the C6, C7, C8 and C10 witnesses. -/
def vergW : VergaderingDB :=
  { vergC1 with
    id := 1
    pid := "http://localhost:8000/vergaderingen/88888888-8888-8888-8888-888888888888"
    pid_uuid := "88888888-8888-8888-8888-888888888888" }

def stW : DBState := { vergaderingen := [vergW] }

/-- C6, witnessed on a one-meeting store. -/
theorem claim_C6_delete_semantics_witness :
    (∀ r, stW.vergaderingen.find?
        (fun v => v.pid_uuid == "88888888-8888-8888-8888-888888888888") = some r →
      ∃ st2,
        Vergaderingen.del_vergadering stW "88888888-8888-8888-8888-888888888888" =
          (st2, .ok 200 "Verwijderactie geslaagd") ∧
        Vergaderingen.get_vergadering st2 "88888888-8888-8888-8888-888888888888" =
          .httpError 404 notFoundDetail ∧
        st2.vergaderingen = stW.vergaderingen.eraseP
          (fun v => v.pid_uuid == "88888888-8888-8888-8888-888888888888") ∧
        st2.agendapunten = stW.agendapunten ∧
        st2.informatieobjecten = stW.informatieobjecten ∧
        st2.links = stW.links) ∧
    (stW.vergaderingen.find?
        (fun v => v.pid_uuid == "88888888-8888-8888-8888-888888888888") = none →
      Vergaderingen.del_vergadering stW "88888888-8888-8888-8888-888888888888" =
        (stW, .httpError 404 notFoundDetail)) :=
  claim_C6_delete_semantics stW "88888888-8888-8888-8888-888888888888" (by decide)

/-- C7: GET `/agendapunten` without a filter renders all agenda items;
with a nonempty `vergadering_pid` filter it answers 404 when no stored
meeting carries that external identifier as its `pid`, and otherwise
renders exactly the agenda items whose `vergadering_id` equals the found
meeting's internal id (with engine-assigned ids this id is nonzero); every
list response carries `next` and `previous` as `None`. -/
theorem claim_C7_agendapunten_list_filter (st : DBState) (vp : String) (m : VergaderingDB) :
    (Agendapunten.get_agendapunten st none =
      .ok 200 { next := none, previous := none,
                results := st.agendapunten.map (Agendapunten.db_to_schema st) }) ∧
    (vp ≠ "" → st.vergaderingen.find? (fun v => v.pid == vp) = none →
      Agendapunten.get_agendapunten st (some vp) =
        .httpError 404 "De gevraagde vergadering is niet gevonden.") ∧
    (vp ≠ "" → st.vergaderingen.find? (fun v => v.pid == vp) = some m → m.id ≠ 0 →
      Agendapunten.get_agendapunten st (some vp) =
        .ok 200 { next := none, previous := none,
                  results := (st.agendapunten.filter
                    (fun ap => ap.vergadering_id == some m.id)).map
                      (Agendapunten.db_to_schema st) }) := by
  refine ⟨rfl, ?_, ?_⟩
  · intro h1 h2
    have hisE : vp.isEmpty = false := by
      rw [Bool.eq_false_iff]
      intro h
      exact h1 ((String.isEmpty_iff _).mp h)
    simp only [Agendapunten.get_agendapunten, optStrTruthy, hisE, Bool.not_false, if_true,
      Option.getD_some, h2, Option.map_none', optIntTruthy, Bool.false_eq_true, if_false]
  · intro h1 h2 hm
    have hisE : vp.isEmpty = false := by
      rw [Bool.eq_false_iff]
      intro h
      exact h1 ((String.isEmpty_iff _).mp h)
    have hmne : (m.id != 0) = true := by
      rw [bne_iff_ne]
      exact hm
    simp only [Agendapunten.get_agendapunten, optStrTruthy, hisE, Bool.not_false, if_true,
      Option.getD_some, h2, Option.map_some', optIntTruthy, hmne, if_true]

/-- C7, witnessed on the one-meeting store: the filtered list for the
stored meeting's pid and the 404 for an unknown pid. -/
theorem claim_C7_agendapunten_list_filter_witness :
    (Agendapunten.get_agendapunten stW none =
      .ok 200 { next := none, previous := none,
                results := stW.agendapunten.map (Agendapunten.db_to_schema stW) }) ∧
    ("http://localhost:8000/vergaderingen/88888888-8888-8888-8888-888888888888" ≠ "" →
      stW.vergaderingen.find? (fun v =>
        v.pid == "http://localhost:8000/vergaderingen/88888888-8888-8888-8888-888888888888") =
          none →
      Agendapunten.get_agendapunten stW
        (some "http://localhost:8000/vergaderingen/88888888-8888-8888-8888-888888888888") =
        .httpError 404 "De gevraagde vergadering is niet gevonden.") ∧
    ("http://localhost:8000/vergaderingen/88888888-8888-8888-8888-888888888888" ≠ "" →
      stW.vergaderingen.find? (fun v =>
        v.pid == "http://localhost:8000/vergaderingen/88888888-8888-8888-8888-888888888888") =
          some vergW →
      vergW.id ≠ 0 →
      Agendapunten.get_agendapunten stW
        (some "http://localhost:8000/vergaderingen/88888888-8888-8888-8888-888888888888") =
        .ok 200 { next := none, previous := none,
                  results := (stW.agendapunten.filter
                    (fun ap => ap.vergadering_id == some vergW.id)).map
                      (Agendapunten.db_to_schema stW) }) :=
  claim_C7_agendapunten_list_filter stW
    "http://localhost:8000/vergaderingen/88888888-8888-8888-8888-888888888888" vergW

/-- C8: a PUT to an existing meeting answers status 201 (not 200), the
matched row is replaced in place by the submitted representation — every
attribute column takes the submitted value — and in particular the stored
`pid_uuid` becomes the client-submitted `pid_uuid`: the implementation
trusts the server-assigned identifier fields in the request body, so a
client can change a resource's external identity via update. -/
theorem claim_C8_put_replaces_and_trusts_pid_uuid
    (st : DBState) (uid : String) (v : Vergadering) (r : VergaderingDB)
    (hfind : st.vergaderingen.find? (fun x => x.pid_uuid == uid) = some r) :
    ∃ st2 body,
      Vergaderingen.put_vergadering st uid v = (st2, .ok 201 body) ∧
      ∃ i : Nat, st.vergaderingen[i]? = some r ∧
        ∃ r2, st2.vergaderingen[i]? = some r2 ∧
          r2.pid_uuid = v.pid_uuid ∧
          r2.naam = v.naam ∧
          r2.dossiertype = v.dossiertype ∧
          r2.webpaginalink = v.webpaginalink ∧
          r2.aanvang = v.aanvang ∧
          r2.einde = v.einde ∧
          r2.geplandeaanvang = v.geplandeaanvang ∧
          r2.geplandeeinde = v.geplandeeinde ∧
          r2.geplandedatum = v.geplandedatum ∧
          r2.locatie = v.locatie ∧
          r2.vergaderstatus = v.vergaderstatus ∧
          r2.vergadertoelichting = v.vergadertoelichting ∧
          r2.vergaderdatum = v.vergaderdatum ∧
          r2.vergaderingstype = v.vergaderingstype ∧
          r2.organisatie_type = organisatieType v.organisatie ∧
          r2.organisatie_code = organisatieCode v.organisatie ∧
          r2.organisatie_naam = organisatieNaam v.organisatie := by
  rw [Vergaderingen.put_vergadering, hfind]
  refine ⟨_, _, rfl, ?_⟩
  obtain ⟨i, h1, h2⟩ := modifyFirst_find?_spec (fun x => x.pid_uuid == uid)
    (fun _ => Vergaderingen.updateVergaderingRow r v) st.vergaderingen r hfind
  exact ⟨i, h1, Vergaderingen.updateVergaderingRow r v, h2, rfl, rfl, rfl, rfl, rfl, rfl,
    rfl, rfl, rfl, rfl, rfl, rfl, rfl, rfl, rfl, rfl, rfl⟩

/-- The full replacement representation submitted in the C8 and C10
witnesses; its `pid_uuid` differs from the stored one. -/
def vPutW : Vergadering :=
  { pid := "http://localhost:8000/vergaderingen/88888888-8888-8888-8888-888888888888"
    pid_uuid := "99999999-9999-9999-9999-999999999999"
    organisatie := .provincie "pv27" "Provincie Groningen"
    dossiertype := "vergadering"
    naam := "Nieuwe Naam" }

/-- C8, witnessed: updating the stored meeting overwrites its columns,
`pid_uuid` included, with status 201. -/
theorem claim_C8_put_replaces_and_trusts_pid_uuid_witness :
    ∃ st2 body,
      Vergaderingen.put_vergadering stW "88888888-8888-8888-8888-888888888888" vPutW =
        (st2, .ok 201 body) ∧
      ∃ i : Nat, stW.vergaderingen[i]? = some vergW ∧
        ∃ r2, st2.vergaderingen[i]? = some r2 ∧
          r2.pid_uuid = vPutW.pid_uuid ∧
          r2.naam = vPutW.naam ∧
          r2.dossiertype = vPutW.dossiertype ∧
          r2.webpaginalink = vPutW.webpaginalink ∧
          r2.aanvang = vPutW.aanvang ∧
          r2.einde = vPutW.einde ∧
          r2.geplandeaanvang = vPutW.geplandeaanvang ∧
          r2.geplandeeinde = vPutW.geplandeeinde ∧
          r2.geplandedatum = vPutW.geplandedatum ∧
          r2.locatie = vPutW.locatie ∧
          r2.vergaderstatus = vPutW.vergaderstatus ∧
          r2.vergadertoelichting = vPutW.vergadertoelichting ∧
          r2.vergaderdatum = vPutW.vergaderdatum ∧
          r2.vergaderingstype = vPutW.vergaderingstype ∧
          r2.organisatie_type = organisatieType vPutW.organisatie ∧
          r2.organisatie_code = organisatieCode vPutW.organisatie ∧
          r2.organisatie_naam = organisatieNaam vPutW.organisatie :=
  claim_C8_put_replaces_and_trusts_pid_uuid stW "88888888-8888-8888-8888-888888888888"
    vPutW vergW (by decide)

/-- C10: the update handler never assigns the stored `pid` column — after
a PUT the persisted `pid` still embeds the uuid chosen at creation while
the rendered `pid` in the response is rebuilt from the newly submitted
`pid_uuid` — and the update leaves every other row and table untouched
(same length, unmatched positions unchanged, other tables equal). -/
theorem claim_C10_put_pid_frame
    (st : DBState) (uid : String) (v : Vergadering) (r : VergaderingDB)
    (hfind : st.vergaderingen.find? (fun x => x.pid_uuid == uid) = some r) :
    ∃ st2 body,
      Vergaderingen.put_vergadering st uid v = (st2, .ok 201 body) ∧
      (∃ i : Nat, st.vergaderingen[i]? = some r ∧
        st2.vergaderingen[i]? = some (Vergaderingen.updateVergaderingRow r v) ∧
        (Vergaderingen.updateVergaderingRow r v).pid = r.pid) ∧
      body.pid = API_SERVER ++ "/vergaderingen/" ++ v.pid_uuid ∧
      st2.vergaderingen.length = st.vergaderingen.length ∧
      (∀ (i : Nat) (x : VergaderingDB), st.vergaderingen[i]? = some x →
        (x.pid_uuid == uid) = false → st2.vergaderingen[i]? = some x) ∧
      st2.agendapunten = st.agendapunten ∧
      st2.informatieobjecten = st.informatieobjecten ∧
      st2.links = st.links := by
  rw [Vergaderingen.put_vergadering, hfind]
  refine ⟨_, _, rfl, ?_, rfl, ?_, ?_, rfl, rfl, rfl⟩
  · obtain ⟨i, h1, h2⟩ := modifyFirst_find?_spec (fun x => x.pid_uuid == uid)
      (fun _ => Vergaderingen.updateVergaderingRow r v) st.vergaderingen r hfind
    exact ⟨i, h1, h2, rfl⟩
  · exact modifyFirst_length _ _ _
  · intro i x h hx
    exact modifyFirst_getElem?_of_neg _ _ _ i x h hx

/-- C10, witnessed: after updating the stored meeting with a fresh
`pid_uuid`, the stored `pid` still embeds the creation uuid while the
response `pid` embeds the submitted one, and the other tables are
untouched. -/
theorem claim_C10_put_pid_frame_witness :
    ∃ st2 body,
      Vergaderingen.put_vergadering stW "88888888-8888-8888-8888-888888888888" vPutW =
        (st2, .ok 201 body) ∧
      (∃ i : Nat, stW.vergaderingen[i]? = some vergW ∧
        st2.vergaderingen[i]? = some (Vergaderingen.updateVergaderingRow vergW vPutW) ∧
        (Vergaderingen.updateVergaderingRow vergW vPutW).pid = vergW.pid) ∧
      body.pid = API_SERVER ++ "/vergaderingen/" ++ vPutW.pid_uuid ∧
      st2.vergaderingen.length = stW.vergaderingen.length ∧
      (∀ (i : Nat) (x : VergaderingDB), stW.vergaderingen[i]? = some x →
        (x.pid_uuid == "88888888-8888-8888-8888-888888888888") = false →
        st2.vergaderingen[i]? = some x) ∧
      st2.agendapunten = stW.agendapunten ∧
      st2.informatieobjecten = stW.informatieobjecten ∧
      st2.links = stW.links :=
  claim_C10_put_pid_frame stW "88888888-8888-8888-8888-888888888888" vPutW vergW (by decide)

end OriApi
